import Mathlib

/-!
Shallow embedding of `src/python_airline_support_bot/bot.py` (class
`AirlineSupportBot`) and proofs about it.

The remote model (OpenAI chat-completion endpoint) is modelled as an
oracle function from a request to either a response message or an
exception (`Except String RespMsg`, the error carrying `str(e)`).
`process_message` is translated statement by statement from the source;
besides the new history and the returned text it records the trace of
remote requests issued and of tool dispatches performed, so that claims
about "how many remote calls" and "dispatch order" are statable.
-/

set_option maxRecDepth 8192

namespace AirlineBot

/-- Python `needle in hay` on strings: substring containment. -/
def strContains (hay needle : String) : Bool :=
  decide (needle.data <:+: hay.data)

/-- Python `str.upper()` (character-wise, as in `String.toUpper`, but defined
on the character list so the kernel can evaluate it). -/
def pyUpper (s : String) : String :=
  ⟨s.data.map Char.toUpper⟩

/-- Python `str.lower()` (character-wise, as in `String.toLower`, but defined
on the character list so the kernel can evaluate it). -/
def pyLower (s : String) : String :=
  ⟨s.data.map Char.toLower⟩

/-- Python `str.strip()`: drop whitespace from both ends. -/
def pyStrip (s : String) : String :=
  ⟨((s.data.dropWhile Char.isWhitespace).reverse.dropWhile Char.isWhitespace).reverse⟩

/-- Python truthiness of an optional string field (`None` and `""` are falsy). -/
def isTruthy : Option String → Bool
  | none => false
  | some s => !s.isEmpty

/-- Model for flight information (`class FlightInfo(BaseModel)`). -/
structure FlightInfo where
  flight_number : String
  departure_city : String
  arrival_city : String
  departure_time : String
  arrival_time : String
  status : String
  gate : Option String
  terminal : Option String
deriving DecidableEq, Repr

/-- The sample flight data (`_create_sample_flight_data`), a Python dict
modelled as an association list in insertion order. -/
def flight_database : List (String × FlightInfo) :=
  [ ("AA123",
     { flight_number := "AA123"
       departure_city := "New York (JFK)"
       arrival_city := "Los Angeles (LAX)"
       departure_time := "08:00 AM"
       arrival_time := "11:30 AM"
       status := "On Time"
       gate := some "A12"
       terminal := some "Terminal 4" }),
    ("DL456",
     { flight_number := "DL456"
       departure_city := "Chicago (ORD)"
       arrival_city := "Miami (MIA)"
       departure_time := "02:15 PM"
       arrival_time := "06:45 PM"
       status := "Delayed - 30 minutes"
       gate := some "B8"
       terminal := some "Terminal 1" }),
    ("UA789",
     { flight_number := "UA789"
       departure_city := "San Francisco (SFO)"
       arrival_city := "Seattle (SEA)"
       departure_time := "05:20 PM"
       arrival_time := "07:40 PM"
       status := "Boarding"
       gate := some "C15"
       terminal := some "Terminal 3" }),
    ("SW101",
     { flight_number := "SW101"
       departure_city := "Denver (DEN)"
       arrival_city := "Phoenix (PHX)"
       departure_time := "09:45 AM"
       arrival_time := "11:10 AM"
       status := "Cancelled"
       gate := none
       terminal := some "Terminal West" }) ]

/-- Python `dict.get key` on the catalog, modelled on the association list. -/
def dictGet (db : List (String × FlightInfo)) (key : String) : Option FlightInfo :=
  (db.find? (fun p => p.1 == key)).map (·.2)

/-- Python `dict.values()` in insertion order. -/
def dictValues (db : List (String × FlightInfo)) : List FlightInfo :=
  db.map (·.2)

/-- Source `AirlineSupportBot._get_flight_info`: `self.flight_database.get(flight_number.upper())`. -/
def get_flight_info (db : List (String × FlightInfo)) (flight_number : String) :
    Option FlightInfo :=
  dictGet db (pyUpper flight_number)

/-- Source `AirlineSupportBot._format_flight_info`. -/
def format_flight_info (flight : FlightInfo) : String :=
  let info := "Flight " ++ flight.flight_number ++ ":\n• Route: " ++
    flight.departure_city ++ " → " ++ flight.arrival_city ++
    "\n• Departure: " ++ flight.departure_time ++
    "\n• Arrival: " ++ flight.arrival_time ++
    "\n• Status: " ++ flight.status
  let info := if isTruthy flight.terminal then
      info ++ "\n• Terminal: " ++ flight.terminal.getD "" else info
  if isTruthy flight.gate then info ++ "\n• Gate: " ++ flight.gate.getD "" else info

/-- Source `AirlineSupportBot.search_flights_by_route`: keeps, in catalog order, the
flights whose fields contain the arguments case-insensitively. -/
def search_flights_by_route (db : List (String × FlightInfo))
    (departure_city arrival_city : String) : List FlightInfo :=
  (dictValues db).filter (fun flight =>
    strContains (pyLower flight.departure_city) (pyLower departure_city) &&
    strContains (pyLower flight.arrival_city) (pyLower arrival_city))

/-- Argument payload of a tool call: the JSON object already parsed, with
string values (the only kind the built-in tools consume). -/
def Args : Type := List (String × String)

instance : DecidableEq Args := by unfold Args; exact inferInstance

/-- Python `arguments.get(key, "")`. -/
def getArg (arguments : Args) (key : String) : String :=
  ((arguments.find? (fun p => p.1 == key)).map (·.2)).getD ""

/-- Source `AirlineSupportBot._execute_function`: dispatch of a named tool call to
one of the three built-in behaviours, or the unknown-function text. Every
branch is a total computation, mirroring the `try/except` wrapper that turns
any internal exception into a text result. -/
def execute_function (db : List (String × FlightInfo))
    (function_name : String) (arguments : Args) : String :=
  if function_name == "get_flight_info" then
    let flight_number := getArg arguments "flight_number"
    match get_flight_info db flight_number with
    | some flight => format_flight_info flight
    | none => "Flight " ++ flight_number ++
        " not found in our system. Please verify the flight number or contact customer service."
  else if function_name == "search_flights_by_route" then
    let departure_city := getArg arguments "departure_city"
    let arrival_city := getArg arguments "arrival_city"
    let flights := search_flights_by_route db departure_city arrival_city
    if flights.isEmpty then
      "No flights found from " ++ departure_city ++ " to " ++ arrival_city ++ "."
    else
      ("Found " ++ toString flights.length ++ " flight(s) from " ++ departure_city ++
        " to " ++ arrival_city ++ ":\n\n" ++
        String.join (flights.map (fun flight => format_flight_info flight ++ "\n\n"))) |> pyStrip
  else if function_name == "get_all_flights" then
    let flights := dictValues db
    ("All available flights (" ++ toString flights.length ++ " total):\n\n" ++
      String.join (flights.map (fun flight => format_flight_info flight ++ "\n\n"))) |> pyStrip
  else
    "Unknown function: " ++ function_name

/-- A parameter entry in a tool schema (`_create_tools`). -/
structure ToolParam where
  name : String
  type : String
  description : String
deriving DecidableEq, Repr

/-- The `function` part of a tool descriptor (`_create_tools`). -/
structure ToolFunctionDef where
  name : String
  description : String
  param_properties : List ToolParam
  required : List String
deriving DecidableEq, Repr

/-- A tool descriptor as sent to the remote model (`_create_tools`). -/
structure ToolDef where
  type : String
  function : ToolFunctionDef
deriving DecidableEq, Repr

/-- Source `AirlineSupportBot._create_tools`: the fixed tool registry. -/
def tools : List ToolDef :=
  [ { type := "function"
      function :=
      { name := "get_flight_info"
        description := "Get detailed information about a specific flight by flight number"
        param_properties :=
          [ { name := "flight_number"
              type := "string"
              description := "The flight number to look up (e.g., \x27AA123\x27, \x27DL456\x27)" } ]
        required := ["flight_number"] } },
    { type := "function"
      function :=
      { name := "search_flights_by_route"
        description := "Search for flights between specific cities or airports"
        param_properties :=
          [ { name := "departure_city"
              type := "string"
              description := "The departure city or airport code" },
            { name := "arrival_city"
              type := "string"
              description := "The arrival city or airport code" } ]
        required := ["departure_city", "arrival_city"] } },
    { type := "function"
      function :=
      { name := "get_all_flights"
        description := "Get a list of all available flights in the system"
        param_properties := []
        required := [] } } ]

/-- Source `AirlineSupportBot._create_system_prompt`. -/
def system_prompt : String :=
  "You are a helpful airline customer support assistant. You can help customers with:\n\n1. Flight information (schedules, status, gates, terminals)\n2. Booking assistance\n3. Baggage policies and issues\n4. Check-in procedures\n5. Cancellation and refund policies\n6. Special assistance requests\n7. Frequent flyer program questions\n8. General travel information\n\nWhen customers ask about specific flights, use the get_flight_info function to look up current flight details.\nWhen customers want to search for flights between cities, use the search_flights_by_route function.\n\nBe professional, empathetic, and helpful. If you don\x27t have specific information about a flight or policy, let the customer know and suggest they contact the airline directly or check the official website.\n\nWhen discussing flight information, always provide clear details including flight numbers, times, gates, and status when available.\n\nIf a customer seems frustrated, acknowledge their concerns and offer specific solutions or next steps."

/-- A tool-call request as returned by the remote model, with the JSON
argument payload of `tool_call.function.arguments` already parsed. -/
structure ToolCall where
  id : String
  name : String
  arguments : Args
deriving DecidableEq

/-- A role-tagged chat message. The Python code builds messages as dicts with
keys among `role`, `content`, `tool_calls`, `tool_call_id`; absent keys are
modelled as `[]` / `none`. -/
structure Msg where
  role : String
  content : Option String
  tool_calls : List ToolCall
  tool_call_id : Option String
deriving DecidableEq

/-- The message `{"role": "user", "content": user_message}`. -/
def userMsg (user_message : String) : Msg :=
  { role := "user", content := some user_message, tool_calls := [], tool_call_id := none }

/-- The message `{"role": "assistant", "content": bot_response}`. -/
def assistantMsg (bot_response : Option String) : Msg :=
  { role := "assistant", content := bot_response, tool_calls := [], tool_call_id := none }

/-- The message `{"role": "system", "content": self.system_prompt}`. -/
def systemMsg : Msg :=
  { role := "system", content := some system_prompt, tool_calls := [], tool_call_id := none }

/-- The message relayed by `response.choices[0].message`: text content
(possibly null) plus the requested tool calls (`None` and `[]` are both
falsy at the dispatch check, so both are modelled as `[]`). -/
structure RespMsg where
  content : Option String
  tool_calls : List ToolCall
deriving DecidableEq

/-- The assistant message echoed into the outgoing list when tool calls are
present: `{"role": "assistant", "content": ..., "tool_calls": ...}`. -/
def assistantToolMsg (response_message : RespMsg) : Msg :=
  { role := "assistant", content := response_message.content,
    tool_calls := response_message.tool_calls, tool_call_id := none }

/-- The tool-result message appended for one tool call:
`{"role": "tool", "tool_call_id": tool_call.id, "content": function_result}`. -/
def toolResultMsg (db : List (String × FlightInfo)) (tool_call : ToolCall) : Msg :=
  { role := "tool", content := some (execute_function db tool_call.name tool_call.arguments),
    tool_calls := [], tool_call_id := some tool_call.id }

/-- A chat-completion request: the outgoing message list and the optional
tool schema (`some` on the first call, absent on the follow-up call). The
constant sampling parameters (`model`, `max_tokens`, `temperature`,
`tool_choice`) are the same on every call and are not modelled. -/
structure ChatRequest where
  messages : List Msg
  tools : Option (List ToolDef)
deriving DecidableEq

/-- Python `l[-n:]`: the suffix of the last `n` elements (all of them when
fewer than `n` exist). -/
def lastN (n : Nat) (l : List α) : List α :=
  l.drop (l.length - n)

/-- The first request of `process_message`: the system prompt followed by
`self.conversation_history[-10:]` after the user message was appended, with
the tool schema attached. -/
def initialRequest (conversation_history : List Msg) (user_message : String) : ChatRequest :=
  { messages := systemMsg :: lastN 10 (conversation_history ++ [userMsg user_message])
    tools := some tools }

/-- The second request of `process_message` when the first response carries
tool calls: the first request's messages, then the assistant's raw response,
then one tool-result message per tool call in order; no tool schema. -/
def followupRequest (conversation_history : List Msg) (user_message : String)
    (response_message : RespMsg) : ChatRequest :=
  { messages := (initialRequest conversation_history user_message).messages ++
      assistantToolMsg response_message ::
        response_message.tool_calls.map (toolResultMsg flight_database)
    tools := none }

/-- The text returned by the top-level `except` clause of `process_message`,
with `e` the `str(e)` of the caught exception. -/
def apologyText (e : String) : String :=
  "I apologize, but I\x27m experiencing technical difficulties. Please try again later or contact customer service directly. Error: " ++ e

/-- The observable outcome of one `process_message` invocation: the new
`self.conversation_history`, the returned text (`none` when the model
returned a null final content), and the traces of remote requests issued and
tool dispatches performed, in order. -/
structure PMOut where
  conversation_history : List Msg
  reply : Option String
  requests : List ChatRequest
  dispatches : List (String × Args)
deriving DecidableEq

/-- Source `AirlineSupportBot.process_message`, translated statement by statement.
`oracle` stands for `self.client.chat.completions.create`: it yields the
`choices[0].message` of the response or the caught exception's text. The
user message is appended to the durable history before the `try` block, and
the assistant reply is appended only on success, exactly as in the source. -/
def process_message (oracle : ChatRequest → Except String RespMsg)
    (conversation_history : List Msg) (user_message : String) : PMOut :=
  let history1 := conversation_history ++ [userMsg user_message]
  let req1 := initialRequest conversation_history user_message
  match oracle req1 with
  | .error e =>
      { conversation_history := history1
        reply := some (apologyText e)
        requests := [req1]
        dispatches := [] }
  | .ok response_message =>
      if response_message.tool_calls.isEmpty then
        { conversation_history := history1 ++ [assistantMsg response_message.content]
          reply := response_message.content
          requests := [req1]
          dispatches := [] }
      else
        let req2 := followupRequest conversation_history user_message response_message
        let dispatched := response_message.tool_calls.map
          (fun tool_call => (tool_call.name, tool_call.arguments))
        match oracle req2 with
        | .error e =>
            { conversation_history := history1
              reply := some (apologyText e)
              requests := [req1, req2]
              dispatches := dispatched }
        | .ok final_response =>
            { conversation_history := history1 ++ [assistantMsg final_response.content]
              reply := final_response.content
              requests := [req1, req2]
              dispatches := dispatched }

/-! Helper lemmas about the string model. -/

theorem data_append (a b : String) : (a ++ b).data = a.data ++ b.data := by
  cases a; cases b; rfl

theorem strContains_iff (hay needle : String) :
    strContains hay needle = true ↔ needle.data <:+: hay.data := by
  simp [strContains]

theorem strContains_empty (hay : String) : strContains hay "" = true := by
  rw [strContains_iff]
  exact ⟨[], hay.data, by simp⟩

theorem strContains_mid (a n b : String) : strContains (a ++ n ++ b) n = true := by
  rw [strContains_iff]
  exact ⟨a.data, b.data, by simp [data_append]⟩

theorem strContains_of_left (a b n : String) (h : strContains a n = true) :
    strContains (a ++ b) n = true := by
  rw [strContains_iff] at h ⊢
  obtain ⟨s, t, hst⟩ := h
  exact ⟨s, t ++ b.data, by simp [data_append, ← hst]⟩

theorem strContains_of_right (a b n : String) (h : strContains b n = true) :
    strContains (a ++ b) n = true := by
  rw [strContains_iff] at h ⊢
  obtain ⟨s, t, hst⟩ := h
  exact ⟨a.data ++ s, t, by simp [data_append, ← hst]⟩

theorem strContains_append_right_self (a n : String) : strContains (a ++ n) n = true := by
  rw [strContains_iff]
  exact ⟨a.data, [], by simp [data_append]⟩

/-- C6: `search_flights_by_route` returns exactly the catalog entries whose
origin contains the first argument and whose destination contains the second,
both case-insensitively; with both arguments empty it returns the whole
catalog. -/
theorem C6_search_characterization :
    (∀ (db : List (String × FlightInfo)) (departure_city arrival_city : String)
      (f : FlightInfo),
      f ∈ search_flights_by_route db departure_city arrival_city ↔
        f ∈ dictValues db ∧
          strContains (pyLower f.departure_city) (pyLower departure_city) = true ∧
          strContains (pyLower f.arrival_city) (pyLower arrival_city) = true) ∧
    (∀ db : List (String × FlightInfo),
      search_flights_by_route db "" "" = dictValues db) := by
  constructor
  · intro db departure_city arrival_city f
    simp [search_flights_by_route, List.mem_filter]
  · intro db
    unfold search_flights_by_route
    rw [List.filter_eq_self]
    intro f _
    have h : pyLower "" = "" := rfl
    rw [h, strContains_empty, strContains_empty]
    rfl

/-- C7: catalog lookup is case-insensitive — two identifiers that agree up to
letter case (same uppercasing) give the same lookup result, because the
identifier is uppercased before the dictionary access. -/
theorem C7_lookup_case_insensitive (db : List (String × FlightInfo)) (s t : String)
    (h : pyUpper s = pyUpper t) :
    get_flight_info db s = get_flight_info db t := by
  simp [get_flight_info, h]

theorem C7_lookup_case_insensitive_witness :
    pyUpper "aa123" = pyUpper "AA123" ∧
    get_flight_info flight_database "aa123" = get_flight_info flight_database "AA123" :=
  ⟨by decide, C7_lookup_case_insensitive flight_database "aa123" "AA123" (by decide)⟩

/-- C8: when the uppercased identifier is not a catalog key, lookup returns
`none` and the `get_flight_info` dispatch returns the not-found text, which
contains "not found" and the identifier in its original casing. -/
theorem C8_lookup_not_found (flight_number : String)
    (h : dictGet flight_database (pyUpper flight_number) = none) :
    get_flight_info flight_database flight_number = none ∧
    execute_function flight_database "get_flight_info" [("flight_number", flight_number)] =
      "Flight " ++ flight_number ++
        " not found in our system. Please verify the flight number or contact customer service." ∧
    strContains
      (execute_function flight_database "get_flight_info" [("flight_number", flight_number)])
      "not found" = true ∧
    strContains
      (execute_function flight_database "get_flight_info" [("flight_number", flight_number)])
      flight_number = true := by
  have hl : get_flight_info flight_database flight_number = none := h
  have harg : getArg [("flight_number", flight_number)] "flight_number" = flight_number := by
    simp [getArg]
  have hexec : execute_function flight_database "get_flight_info"
      [("flight_number", flight_number)] =
      "Flight " ++ flight_number ++
        " not found in our system. Please verify the flight number or contact customer service." := by
    simp only [execute_function, harg, hl]
    rfl
  refine ⟨hl, hexec, ?_, ?_⟩
  · rw [hexec]
    exact strContains_of_right _ _ _ (by decide)
  · rw [hexec]
    exact strContains_mid _ _ _

theorem C8_lookup_not_found_witness :
    get_flight_info flight_database "xx999" = none ∧
    execute_function flight_database "get_flight_info" [("flight_number", "xx999")] =
      "Flight xx999 not found in our system. Please verify the flight number or contact customer service." ∧
    strContains
      (execute_function flight_database "get_flight_info" [("flight_number", "xx999")])
      "not found" = true ∧
    strContains
      (execute_function flight_database "get_flight_info" [("flight_number", "xx999")])
      "xx999" = true :=
  C8_lookup_not_found "xx999" (by decide)

/-- C9: dispatch of a name outside the three built-in tool names returns the
unknown-function text, which contains "Unknown function"; every dispatch
branch is a total computation, so no exception escapes. -/
theorem C9_unknown_function (db : List (String × FlightInfo))
    (function_name : String) (arguments : Args)
    (h1 : function_name ≠ "get_flight_info")
    (h2 : function_name ≠ "search_flights_by_route")
    (h3 : function_name ≠ "get_all_flights") :
    execute_function db function_name arguments = "Unknown function: " ++ function_name ∧
    strContains (execute_function db function_name arguments) "Unknown function" = true := by
  have hexec : execute_function db function_name arguments =
      "Unknown function: " ++ function_name := by
    simp [execute_function, h1, h2, h3]
  refine ⟨hexec, ?_⟩
  rw [hexec]
  exact strContains_of_left _ _ _ (by decide)

theorem C9_unknown_function_witness :
    execute_function flight_database "unknown_function" [] =
      "Unknown function: unknown_function" ∧
    strContains (execute_function flight_database "unknown_function" [])
      "Unknown function" = true :=
  C9_unknown_function flight_database "unknown_function" []
    (by decide) (by decide) (by decide)

/-- C10: a missing argument key defaults to the empty string: `get_flight_info`
without a `flight_number` key produces the not-found text for the empty
identifier, and `search_flights_by_route` without city keys behaves as with
two empty substrings, which match every flight, so the dispatch result lists
the entire catalog (it contains every flight number). -/
theorem C10_missing_arguments_default (args1 args2 : Args)
    (h1 : args1.find? (fun p => p.1 == "flight_number") = none)
    (h2 : args2.find? (fun p => p.1 == "departure_city") = none)
    (h3 : args2.find? (fun p => p.1 == "arrival_city") = none) :
    execute_function flight_database "get_flight_info" args1 =
      "Flight  not found in our system. Please verify the flight number or contact customer service." ∧
    execute_function flight_database "search_flights_by_route" args2 =
      execute_function flight_database "search_flights_by_route"
        [("departure_city", ""), ("arrival_city", "")] ∧
    search_flights_by_route flight_database "" "" = dictValues flight_database ∧
    (dictValues flight_database).all
      (fun f => strContains
        (execute_function flight_database "search_flights_by_route" args2)
        f.flight_number) = true := by
  have e1 : getArg args1 "flight_number" = "" := by simp [getArg, h1]
  have e2 : getArg args2 "departure_city" = "" := by simp [getArg, h2]
  have e3 : getArg args2 "arrival_city" = "" := by simp [getArg, h3]
  have r1 : execute_function flight_database "get_flight_info" args1 =
      execute_function flight_database "get_flight_info" [] := by
    simp only [execute_function, e1]
    rfl
  have r2 : execute_function flight_database "search_flights_by_route" args2 =
      execute_function flight_database "search_flights_by_route"
        [("departure_city", ""), ("arrival_city", "")] := by
    simp only [execute_function, e2, e3]
    rfl
  refine ⟨r1.trans (by decide), r2, by decide, ?_⟩
  rw [r2]
  decide

theorem C10_missing_arguments_default_witness :
    execute_function flight_database "get_flight_info" [] =
      "Flight  not found in our system. Please verify the flight number or contact customer service." ∧
    execute_function flight_database "search_flights_by_route" [] =
      execute_function flight_database "search_flights_by_route"
        [("departure_city", ""), ("arrival_city", "")] ∧
    search_flights_by_route flight_database "" "" = dictValues flight_database ∧
    (dictValues flight_database).all
      (fun f => strContains
        (execute_function flight_database "search_flights_by_route" [])
        f.flight_number) = true :=
  C10_missing_arguments_default [] [] rfl rfl rfl

/-- In a list whose keys (under `f`) are pairwise distinct, filtering for the
key of a member singles out exactly that member. -/
theorem filter_key_eq_single {α : Type} (f : α → String) (l : List α) (a : α)
    (hnd : (l.map f).Nodup) (ha : a ∈ l) :
    l.filter (fun x => f x == f a) = [a] := by
  induction l with
  | nil => cases ha
  | cons b l ih =>
    rw [List.map_cons, List.nodup_cons] at hnd
    obtain ⟨hnb, hnd⟩ := hnd
    rcases List.mem_cons.mp ha with rfl | ha'
    · have hnil : l.filter (fun x => f x == f a) = [] := by
        rw [List.filter_eq_nil_iff]
        intro x hx
        simp only [beq_iff_eq]
        intro hfx
        exact hnb (hfx ▸ List.mem_map_of_mem f hx)
      simp [List.filter_cons, hnil]
    · have hfb : f b ≠ f a := by
        intro hEq
        exact hnb (hEq ▸ List.mem_map_of_mem f ha')
      simp [List.filter_cons, hfb, ih hnd ha']

/-- C3: when the first response carries no tool calls, exactly one remote
call is issued and exactly two entries are appended to the durable history —
the user message, then the assistant response. -/
theorem C3_no_tool_calls (oracle : ChatRequest → Except String RespMsg)
    (hist : List Msg) (m : String) (rm : RespMsg)
    (h1 : oracle (initialRequest hist m) = Except.ok rm)
    (h2 : rm.tool_calls = []) :
    (process_message oracle hist m).requests.length = 1 ∧
    (process_message oracle hist m).conversation_history =
      hist ++ [userMsg m, assistantMsg rm.content] := by
  simp [process_message, h1, h2]

def oracleC3 : ChatRequest → Except String RespMsg :=
  fun _ => Except.ok ⟨some "I can help you with flight information.", []⟩

theorem C3_no_tool_calls_witness :
    (process_message oracleC3 [] "Hello, can you help me?").requests.length = 1 ∧
    (process_message oracleC3 [] "Hello, can you help me?").conversation_history =
      [] ++ [userMsg "Hello, can you help me?",
        assistantMsg (some "I can help you with flight information.")] :=
  C3_no_tool_calls oracleC3 [] "Hello, can you help me?"
    ⟨some "I can help you with flight information.", []⟩ rfl rfl

/-- C2: when the first response carries exactly one tool call, exactly two
remote calls are issued, the dispatcher runs exactly once, and the returned
text is the second response's text. -/
theorem C2_one_tool_call (oracle : ChatRequest → Except String RespMsg)
    (hist : List Msg) (m : String) (rm : RespMsg) (tc : ToolCall) (fm : RespMsg)
    (h1 : oracle (initialRequest hist m) = Except.ok rm)
    (h2 : rm.tool_calls = [tc])
    (h3 : oracle (followupRequest hist m rm) = Except.ok fm) :
    (process_message oracle hist m).requests.length = 2 ∧
    (process_message oracle hist m).dispatches.length = 1 ∧
    (process_message oracle hist m).reply = fm.content := by
  simp [process_message, h1, h2, h3]

def rmC2 : RespMsg :=
  ⟨none, [⟨"call_123", "get_flight_info", [("flight_number", "AA123")]⟩]⟩

def fmC2 : RespMsg :=
  ⟨some "Flight AA123 is on time and departing from gate A12.", []⟩

def oracleC2 : ChatRequest → Except String RespMsg :=
  fun req => if req.tools.isSome then Except.ok rmC2 else Except.ok fmC2

theorem C2_one_tool_call_witness :
    (process_message oracleC2 [] "What is the status of flight AA123?").requests.length = 2 ∧
    (process_message oracleC2 [] "What is the status of flight AA123?").dispatches.length = 1 ∧
    (process_message oracleC2 [] "What is the status of flight AA123?").reply =
      some "Flight AA123 is on time and departing from gate A12." :=
  C2_one_tool_call oracleC2 [] "What is the status of flight AA123?" rmC2
    ⟨"call_123", "get_flight_info", [("flight_number", "AA123")]⟩ fmC2 rfl rfl rfl

/-- C4: the tool calls of the first response are dispatched in the order the
model returned them; the follow-up request extends the first request's
message list with the assistant echo and one tool-result message per tool
call, each tagged with the originating call identifier (exactly one result
per identifier when the identifiers are distinct); the follow-up request
carries no tool schema. -/
theorem C4_tool_call_protocol (oracle : ChatRequest → Except String RespMsg)
    (hist : List Msg) (m : String) (rm : RespMsg)
    (h1 : oracle (initialRequest hist m) = Except.ok rm)
    (hne : rm.tool_calls ≠ [])
    (hids : (rm.tool_calls.map (fun tc => tc.id)).Nodup) :
    (process_message oracle hist m).requests =
      [initialRequest hist m, followupRequest hist m rm] ∧
    (process_message oracle hist m).dispatches =
      rm.tool_calls.map (fun tc => (tc.name, tc.arguments)) ∧
    (followupRequest hist m rm).tools = none ∧
    (followupRequest hist m rm).messages =
      (initialRequest hist m).messages ++
        assistantToolMsg rm :: rm.tool_calls.map (toolResultMsg flight_database) ∧
    (∀ tc ∈ rm.tool_calls,
      ((followupRequest hist m rm).messages.drop
          (initialRequest hist m).messages.length).filter
        (fun msg => msg.tool_call_id == some tc.id) =
      [toolResultMsg flight_database tc]) := by
  have hni : rm.tool_calls.isEmpty = false := by
    cases hh : rm.tool_calls with
    | nil => exact absurd hh hne
    | cons a l => rfl
  refine ⟨?_, ?_, rfl, rfl, ?_⟩
  · cases h2 : oracle (followupRequest hist m rm) <;>
      simp [process_message, h1, hni, h2]
  · cases h2 : oracle (followupRequest hist m rm) <;>
      simp [process_message, h1, hni, h2]
  · intro tc htc
    show (((initialRequest hist m).messages ++
        assistantToolMsg rm :: rm.tool_calls.map (toolResultMsg flight_database)).drop
          (initialRequest hist m).messages.length).filter
        (fun msg => msg.tool_call_id == some tc.id) = [toolResultMsg flight_database tc]
    rw [List.drop_left, List.filter_cons]
    have hno : ((assistantToolMsg rm).tool_call_id == some tc.id) = false := rfl
    rw [hno]
    have hfm : (rm.tool_calls.map (toolResultMsg flight_database)).filter
        (fun msg => msg.tool_call_id == some tc.id) =
        (rm.tool_calls.filter (fun tc2 => tc2.id == tc.id)).map
          (toolResultMsg flight_database) := by
      rw [List.filter_map]
      congr 1
    rw [if_neg (by simp), hfm, filter_key_eq_single (fun tc2 => tc2.id) _ tc hids htc,
      List.map_singleton]

def rmC4 : RespMsg :=
  ⟨none, [⟨"call_1", "get_flight_info", [("flight_number", "AA123")]⟩,
          ⟨"call_2", "get_all_flights", []⟩]⟩

def fmC4 : RespMsg := ⟨some "Here are the flights.", []⟩

def oracleC4 : ChatRequest → Except String RespMsg :=
  fun req => if req.tools.isSome then Except.ok rmC4 else Except.ok fmC4

theorem C4_tool_call_protocol_witness :
    (process_message oracleC4 [] "Tell me about flights.").requests =
      [initialRequest [] "Tell me about flights.",
        followupRequest [] "Tell me about flights." rmC4] ∧
    (process_message oracleC4 [] "Tell me about flights.").dispatches =
      rmC4.tool_calls.map (fun tc => (tc.name, tc.arguments)) ∧
    (followupRequest [] "Tell me about flights." rmC4).tools = none ∧
    (followupRequest [] "Tell me about flights." rmC4).messages =
      (initialRequest [] "Tell me about flights.").messages ++
        assistantToolMsg rmC4 :: rmC4.tool_calls.map (toolResultMsg flight_database) ∧
    (∀ tc ∈ rmC4.tool_calls,
      ((followupRequest [] "Tell me about flights." rmC4).messages.drop
          (initialRequest [] "Tell me about flights.").messages.length).filter
        (fun msg => msg.tool_call_id == some tc.id) =
      [toolResultMsg flight_database tc]) :=
  C4_tool_call_protocol oracleC4 [] "Tell me about flights." rmC4
    rfl (by decide) (by decide)

/-- C5: the outgoing list of the first remote call is exactly one system
instruction message followed by the last 10 entries of the durable history
after the user message was appended; the window is a suffix of the history,
counts whole messages, and is the whole history when at most 10 entries
exist. -/
theorem C5_outgoing_window (oracle : ChatRequest → Except String RespMsg)
    (hist : List Msg) (m : String) :
    (process_message oracle hist m).requests.head? = some (initialRequest hist m) ∧
    (initialRequest hist m).messages =
      systemMsg :: lastN 10 (hist ++ [userMsg m]) ∧
    lastN 10 (hist ++ [userMsg m]) <:+ (hist ++ [userMsg m]) ∧
    (lastN 10 (hist ++ [userMsg m])).length = min 10 (hist.length + 1) ∧
    (hist.length + 1 ≤ 10 → lastN 10 (hist ++ [userMsg m]) = hist ++ [userMsg m]) := by
  refine ⟨?_, rfl, List.drop_suffix _ _, ?_, ?_⟩
  · cases h1 : oracle (initialRequest hist m) with
    | error e => simp [process_message, h1]
    | ok rm =>
      cases hni : rm.tool_calls.isEmpty
      · cases h2 : oracle (followupRequest hist m rm) <;>
          simp [process_message, h1, hni, h2]
      · simp [process_message, h1, hni]
  · rw [lastN, List.length_drop, List.length_append, List.length_singleton]
    omega
  · intro hle
    rw [lastN]
    have hz : (hist ++ [userMsg m]).length - 10 = 0 := by
      rw [List.length_append, List.length_singleton]
      omega
    rw [hz, List.drop_zero]

def oracleC5 : ChatRequest → Except String RespMsg :=
  fun _ => Except.error "x"

theorem C5_outgoing_window_witness :
    (process_message oracleC5 [] "Hello").requests.head? =
      some (initialRequest [] "Hello") ∧
    lastN 10 ([] ++ [userMsg "Hello"]) = [] ++ [userMsg "Hello"] :=
  ⟨(C5_outgoing_window oracleC5 [] "Hello").1,
    (C5_outgoing_window oracleC5 [] "Hello").2.2.2.2 (by decide)⟩

/-- C1 (as stated) is false: after a failing remote call the durable history
is not what it was before the `process_message` call — the user message
appended before the `try` block remains. Concretely, starting from the empty
history with an oracle that always raises, the history afterwards is not
empty. -/
theorem C1_counterexample :
    ¬ (process_message (fun _ => Except.error "API Error") [] "Hello").conversation_history
        = [] := by
  decide

/-- C1 amended: when either remote call raises, the durable history equals
the prior history plus exactly the just-appended user message (no assistant
entry), and the returned text is the fixed apology containing the error
detail. -/
theorem C1_failure_leaves_user_entry (oracle : ChatRequest → Except String RespMsg)
    (hist : List Msg) (m : String) (e : String)
    (h : oracle (initialRequest hist m) = Except.error e ∨
      ∃ rm, oracle (initialRequest hist m) = Except.ok rm ∧ rm.tool_calls ≠ [] ∧
        oracle (followupRequest hist m rm) = Except.error e) :
    (process_message oracle hist m).conversation_history = hist ++ [userMsg m] ∧
    (process_message oracle hist m).reply = some (apologyText e) ∧
    strContains (apologyText e) "technical difficulties" = true ∧
    strContains (apologyText e) e = true := by
  have hmark : strContains (apologyText e) "technical difficulties" = true :=
    strContains_of_left _ _ _ (by decide)
  have herr : strContains (apologyText e) e = true :=
    strContains_append_right_self _ e
  rcases h with h1 | ⟨rm, h1, hne, h2⟩
  · refine ⟨?_, ?_, hmark, herr⟩ <;> simp [process_message, h1]
  · have hni : rm.tool_calls.isEmpty = false := by
      cases hh : rm.tool_calls with
      | nil => exact absurd hh hne
      | cons a l => rfl
    refine ⟨?_, ?_, hmark, herr⟩ <;> simp [process_message, h1, hni, h2]

theorem C1_failure_leaves_user_entry_witness :
    (process_message (fun _ => Except.error "API Error") [] "Hello").conversation_history =
      [] ++ [userMsg "Hello"] ∧
    (process_message (fun _ => Except.error "API Error") [] "Hello").reply =
      some (apologyText "API Error") ∧
    strContains (apologyText "API Error") "technical difficulties" = true ∧
    strContains (apologyText "API Error") "API Error" = true :=
  C1_failure_leaves_user_entry (fun _ => Except.error "API Error") [] "Hello" "API Error"
    (Or.inl rfl)

end AirlineBot
